import Mathlib

/-!
Verification development for the multi-domain DDS diagnostic monitor
(`src/monitoring/monitor.cpp`).  The definitions below are a shallow
embedding of the program: each definition mirrors one function, loop or
code block of the source.  Spec-side definitions (used to compare the
code against the design document) are clearly marked as such.
-/

namespace DDSMonitor

/- ## Domain Range Parser (`parse_domains_from_input`, monitor.cpp:39-63) -/

/-- Model of C `isspace` for the characters `std::atoi` skips. -/
def isSpaceC (c : Char) : Bool :=
  c = ' ' || c = '\t' || c = '\n' || c = Char.ofNat 11 || c = Char.ofNat 12 || c = '\r'

/-- Digit-accumulation loop of C `atoi`: consume leading decimal digits,
stopping at the first non-digit character. -/
def atoiLoop : List Char → Int → Int
  | [], acc => acc
  | c :: cs, acc =>
      if c.isDigit then atoiLoop cs (acc * 10 + ((c.toNat : Int) - 48)) else acc

/-- Model of C `std::atoi` on the character list of a token: skip leading
whitespace, consume an optional sign, then leading digits; a token with no
leading numeric part converts to 0.  (Overflow is not modelled; the inputs
of interest are small.) -/
def cppAtoi (cs0 : List Char) : Int :=
  let cs := cs0.dropWhile isSpaceC
  match cs with
  | [] => 0
  | c :: rest =>
      if c = '-' then - atoiLoop rest 0
      else if c = '+' then atoiLoop rest 0
      else atoiLoop (c :: rest) 0

/-- Model of `token.find('-')` (monitor.cpp:46): index of the first
hyphen, `none` for `npos`. -/
def findDash : List Char → Option Nat
  | [] => none
  | c :: cs => if c = '-' then some 0 else (findDash cs).map Nat.succ

/-- Model of the `for (int d = start; d <= end; ++d)` loop
(monitor.cpp:54-56): the integers from `s` to `e` inclusive, ascending
(empty when `e < s`). -/
def cppForRange (s e : Int) : List Int :=
  (List.range (e - s + 1).toNat).map (fun k => s + (k : Int))

/-- The hyphen branch of the token loop (monitor.cpp:47-57): split the
token at the hyphen position; when both substrings are non-empty, convert
both with `atoi`, swap if inverted, and emit the inclusive range;
otherwise emit nothing. -/
def rangeBranch (cs : List Char) (dash : Nat) : List Int :=
  if cs.take dash ≠ [] ∧ cs.drop (dash + 1) ≠ [] then
    if cppAtoi (cs.drop (dash + 1)) < cppAtoi (cs.take dash) then
      cppForRange (cppAtoi (cs.drop (dash + 1))) (cppAtoi (cs.take dash))
    else
      cppForRange (cppAtoi (cs.take dash)) (cppAtoi (cs.drop (dash + 1)))
  else []

/-- Body of the token loop of `parse_domains_from_input`
(monitor.cpp:44-60), acting on the characters of one token: empty tokens
are skipped; a token containing a hyphen is handled by the range branch;
a hyphen-free token contributes its `atoi` value. -/
def processTokenChars (cs : List Char) : List Int :=
  if cs = [] then []
  else
    match findDash cs with
    | some dash => rangeBranch cs dash
    | none => [cppAtoi cs]

/-- Split a character list on commas, keeping empty segments (including a
final one after a trailing comma); the result is always non-empty. -/
def splitComma : List Char → List (List Char)
  | [] => [[]]
  | c :: cs =>
      if c = ',' then [] :: splitComma cs
      else
        match splitComma cs with
        | t :: ts => (c :: t) :: ts
        | [] => [[c]]

/-- Model of the `std::getline(ss, token, ',')` loop (monitor.cpp:43):
split on commas, except that the empty input produces no token at all and
a trailing comma does not produce a final empty token (the stream is at
end-of-file after consuming the last delimiter, so the next `getline`
fails). -/
def cppGetlineTokens (cs : List Char) : List (List Char) :=
  if cs = [] then []
  else if cs.getLast? = some ',' then (splitComma cs).dropLast
  else splitComma cs

/-- `parse_domains_from_input` (monitor.cpp:39-63): tokenise the input on
commas and concatenate the contribution of each token in order. -/
def parse_domains_from_input (input : String) : List Int :=
  ((cppGetlineTokens input.data).map processTokenChars).flatten

/- ## Spec-side token model (§4.1 of the design document, for claim C2) -/

/-- Spec-side parsed form of one valid domain token: a single non-negative
integer, or a hyphenated range. -/
inductive DomToken : Type
  | single (n : Int)
  | range (a b : Int) : DomToken
deriving DecidableEq, Repr

/-- Value of a decimal digit string, most significant digit first. -/
def digitsToInt (cs : List Char) : Int :=
  cs.foldl (fun a c => a * 10 + ((c.toNat : Int) - 48)) 0

/-- Spec-side shape predicate tying the characters of a valid token to its
parsed form: either a non-empty all-digit token denoting a single integer,
or two non-empty all-digit parts joined by one hyphen denoting a range. -/
inductive TokenShape : List Char → DomToken → Prop
  | single (cs : List Char) (h1 : cs ≠ [])
      (h2 : ∀ c ∈ cs, c.isDigit = true) :
      TokenShape cs (DomToken.single (digitsToInt cs))
  | range (a b : List Char) (ha : a ≠ []) (hb : b ≠ [])
      (ha2 : ∀ c ∈ a, c.isDigit = true) (hb2 : ∀ c ∈ b, c.isDigit = true) :
      TokenShape (a ++ '-' :: b) (DomToken.range (digitsToInt a) (digitsToInt b))

/-- Spec-side ascending inclusive sequence from `lo` to `hi`.  Modelled
from the spec: "expands each range to its full ascending inclusive
sequence". -/
def ascSeq (lo hi : Int) : List Int :=
  (List.range (hi - lo + 1).toNat).map (fun k => lo + (k : Int))

/-- Spec-side expansion of one valid token (§4.1): a single integer stands
for itself; a range expands to the ascending inclusive sequence between
its endpoints regardless of the order they were written in. -/
def expandShape : DomToken → List Int
  | DomToken.single n => [n]
  | DomToken.range a b => ascSeq (min a b) (max a b)

/- ## Topic Classifier (monitor.cpp:76-83) -/

/-- Classification of a CoreData topic name into its display subtype
(monitor.cpp:76-83): the `subtype` variable starts as "coredata" and is
replaced only on an exact match of the three numbered variant names; an
empty topic name keeps the default. -/
def classifyCoreTopic (topic_name : String) : String :=
  if topic_name = "" then "coredata"
  else if topic_name = "CoreData2Topic" then "coredata2"
  else if topic_name = "CoreData3Topic" then "coredata3"
  else if topic_name = "CoreData4Topic" then "coredata4"
  else "coredata"

/- ## Reader-level QoS construction (monitor.cpp:355-361) -/

inductive ReliabilityKind : Type
  | bestEffort
  | reliable
deriving DecidableEq, Repr

inductive DurabilityKind : Type
  | volatileDur
  | transientLocal
deriving DecidableEq, Repr

inductive HistoryKind : Type
  | keepLast
  | keepAll
deriving DecidableEq, Repr

/-- The slice of `DataReaderQos` the monitor manipulates: the property
list and the reliability / durability / history policy kinds. -/
structure DataReaderQos where
  properties : List (String × String)
  reliabilityKind : ReliabilityKind
  durabilityKind : DurabilityKind
  historyKind : HistoryKind
deriving DecidableEq, Repr

/-- `DATAREADER_QOS_DEFAULT` of Fast DDS: empty property list,
best-effort reliability, volatile durability, keep-last history. -/
def DATAREADER_QOS_DEFAULT : DataReaderQos :=
  { properties := []
    reliabilityKind := ReliabilityKind.bestEffort
    durabilityKind := DurabilityKind.volatileDur
    historyKind := HistoryKind.keepLast }

/-- Model of `Subscriber::get_default_datareader_qos(rqos)`: it copies the
subscriber's default DataReaderQos into its argument, discarding the
argument's previous contents.  The monitor never calls
`set_default_datareader_qos`, so the subscriber default equals
`DATAREADER_QOS_DEFAULT`. -/
def subscriberDefaultReaderQos : DataReaderQos :=
  DATAREADER_QOS_DEFAULT

/-- The reader QoS built per domain (monitor.cpp:355-361), step by step:
start from `DATAREADER_QOS_DEFAULT`; append the
`rtps.payload_protection=ENCRYPT` property; then `get_default_datareader_qos`
overwrites the whole object with the subscriber default; then the
reliability, durability and history kinds are set.  This is the value
passed to every `create_datareader` call (monitor.cpp:387-392). -/
def buildReaderQos : DataReaderQos :=
  let rqos := DATAREADER_QOS_DEFAULT
  let rqos := { rqos with
    properties := rqos.properties ++ [("rtps.payload_protection", "ENCRYPT")] }
  let rqos := subscriberDefaultReaderQos
  let rqos := { rqos with reliabilityKind := ReliabilityKind.reliable }
  let rqos := { rqos with durabilityKind := DurabilityKind.transientLocal }
  { rqos with historyKind := HistoryKind.keepAll }

/- ## Domain-list selection in `main` (monitor.cpp:249-258) -/

/-- The domain-selection logic at the top of `main` (monitor.cpp:249-258):
a present, non-empty first argument is parsed; otherwise a present
`MONITOR_DOMAINS` environment value is parsed; if the resulting list is
empty the compiled-in default `{0,1,2,3,4,5}` is used. -/
def chooseDomains (arg : Option String) (env : Option String) : List Int :=
  let domains :=
    match arg with
    | some a =>
        if 0 < a.length then parse_domains_from_input a
        else
          match env with
          | some e => parse_domains_from_input e
          | none => []
    | none =>
        match env with
        | some e => parse_domains_from_input e
        | none => []
  if domains = [] then [0, 1, 2, 3, 4, 5] else domains

/- ## Drain loops (`on_data_available`, monitor.cpp:71-100, 120-158, 178-234) -/

inductive InstanceState : Type
  | alive
  | notAliveDisposed
  | notAliveNoWriters
deriving DecidableEq, Repr

/-- The slice of `SampleInfo` the drain loops inspect. -/
structure SampleInfo where
  instance_state : InstanceState
  valid_data : Bool
deriving DecidableEq, Repr

/-- The acceptance test applied to every pulled sample
(monitor.cpp:75, 124, 182): alive instance state and valid data. -/
def acceptSample (info : SampleInfo) : Bool :=
  match info.instance_state with
  | InstanceState.alive => info.valid_data
  | _ => false

/-- The drain loop shared (up to the format function) by the three
listeners (monitor.cpp:74-99, 123-157, 181-233).  `stop i` is the value
the loop reads from the global stop flag at its `i`-th iteration, checked
before each `take_next_sample`; `queue` is the reader's buffered samples
in delivery order (an exhausted queue models `take_next_sample`
returning a non-OK code); `cnt` is the listener's `samples_` counter.
An accepted sample increments the counter and is formatted with the
post-increment value; the pair returned is the final counter and the
strings written to the console stream, in order. -/
def drainAux {α : Type} (fmt : Nat → α → String) (stop : Nat → Bool)
    (i : Nat) (queue : List (SampleInfo × α)) (cnt : Nat) : Nat × List String :=
  if stop i then (cnt, [])
  else
    match queue with
    | [] => (cnt, [])
    | (info, s) :: rest =>
        if acceptSample info then
          let r := drainAux fmt stop (i + 1) rest (cnt + 1)
          (r.1, fmt (cnt + 1) s :: r.2)
        else drainAux fmt stop (i + 1) rest cnt

/-- The samples the drain loop actually pulls from the queue: it takes
the next buffered element only when the stop flag reads false at that
iteration, and aborts at the first true reading. -/
def pulledWhile {α : Type} (stop : Nat → Bool) : Nat → List α → List α
  | _, [] => []
  | i, p :: rest => if stop i then [] else p :: pulledWhile stop (i + 1) rest

/-- Consecutive post-increment numbering of a list of accepted samples:
the k-th element (0-based) is formatted with counter value `cnt + k + 1`. -/
def numberedFormats {α : Type} (fmt : Nat → α → String) : Nat → List α → List String
  | _, [] => []
  | cnt, x :: xs => fmt (cnt + 1) x :: numberedFormats fmt (cnt + 1) xs

/-- The accepted (alive, valid-data) samples among those a drain loop
pulls. -/
def acceptedPulled {α : Type} (stop : Nat → Bool) (i : Nat)
    (queue : List (SampleInfo × α)) : List α :=
  ((pulledWhile stop i queue).filter (fun p => acceptSample p.1)).map Prod.snd

/-- A whole session of drain-loop invocations on one listener: the
counter value is threaded from each invocation to the next, exactly as
the listener's `samples_` member persists between callbacks. -/
def runDrains {α : Type} (fmt : Nat → α → String) :
    List ((Nat → Bool) × List (SampleInfo × α)) → Nat → Nat × List (List String)
  | [], cnt => (cnt, [])
  | (stop, queue) :: calls, cnt =>
      let r := drainAux fmt stop 0 queue cnt
      let rest := runDrains fmt calls r.1
      (rest.1, r.2 :: rest.2)

/-- Expected outputs of a session of drain-loop invocations: each
invocation numbers its accepted samples consecutively after all accepted
samples of the earlier invocations. -/
def drainsFormats {α : Type} (fmt : Nat → α → String) :
    List ((Nat → Bool) × List (SampleInfo × α)) → Nat → List (List String)
  | [], _ => []
  | (stop, queue) :: calls, cnt =>
      numberedFormats fmt cnt (acceptedPulled stop 0 queue) ::
        drainsFormats fmt calls (cnt + (acceptedPulled stop 0 queue).length)

/- ## The three record kinds and their formatters (monitor.cpp:84-95, 125-153, 183-229).
Numeric fields are modelled as integers (their middleware-owned encodings
are out of scope); free-text fields as strings; flags as booleans. -/

structure FlatCoreData where
  latitude : Int
  longitude : Int
  altitude : Int
  time_seconds : Int
  time_nano_seconds : Int
  speed_mps : Int
  orientation_degrees : Int
deriving DecidableEq, Repr


/-- Record formatting of `CoreDataMonitor::on_data_available`
(monitor.cpp:84-95): header with domain and classified subtype, sequence
line with the counter value, then the seven fields in source order. -/
def formatCoreData (domain_id : Int) (topic_name : String) (n : Nat)
    (s : FlatCoreData) : String :=
  "[domain=" ++ toString domain_id ++ "] TOPIC: aircraft " ++
    classifyCoreTopic topic_name ++ "\n" ++
  "Sample \x27" ++ toString n ++ "\x27 RECEIVED\n" ++
  " - \x7b" ++
  "latitude: " ++ toString s.latitude ++ ", " ++
  "longitude: " ++ toString s.longitude ++ ", " ++
  "altitude: " ++ toString s.altitude ++ ", " ++
  "time_seconds: " ++ toString s.time_seconds ++ ", " ++
  "time_nano_seconds: " ++ toString s.time_nano_seconds ++ ", " ++
  "speed_mps: " ++ toString s.speed_mps ++ ", " ++
  "orientation_degrees: " ++ toString s.orientation_degrees ++
  "\x7d"

structure FlatIntelligence where
  vs_task_status : Int
  vs_battery_percentage : Int
  vs_signal_strength_dbm : Int
  vs_system_error : Bool
  td_target_ID : String
  td_target_type : Int
  td_location_latitude : Int
  td_location_longitude : Int
  td_location_altitude : Int
  td_location_time_seconds : Int
  td_location_time_nano_seconds : Int
  td_location_speed_mps : Int
  td_location_orientation_degrees : Int
  td_confidence_level : Int
  td_description : String
  td_raw_data_link : String
  ta_command : String
  ta_location_latitude : Int
  ta_location_longitude : Int
  ta_location_altitude : Int
  ta_location_time_seconds : Int
  ta_location_time_nano_seconds : Int
  ta_location_speed_mps : Int
  ta_location_orientation_degrees : Int

/-- Record formatting of `IntelligenceMonitor::on_data_available`
(monitor.cpp:125-153): the 24 fields in source order, free text quoted,
the boolean rendered as the words true/false. -/
def formatIntelligence (domain_id : Int) (n : Nat) (s : FlatIntelligence) : String :=
  "[domain=" ++ toString domain_id ++ "] TOPIC: intelligence\n" ++
  "Sample \x27" ++ toString n ++ "\x27 RECEIVED\n" ++
  " - \x7b" ++
  "vs_task_status: " ++ toString s.vs_task_status ++ ", " ++
  "vs_battery_percentage: " ++ toString s.vs_battery_percentage ++ ", " ++
  "vs_signal_strength_dbm: " ++ toString s.vs_signal_strength_dbm ++ ", " ++
  "vs_system_error: " ++ (if s.vs_system_error then "true" else "false") ++ ", " ++
  "td_target_ID: \"" ++ s.td_target_ID ++ "\", " ++
  "td_target_type: " ++ toString s.td_target_type ++ ", " ++
  "td_location_latitude: " ++ toString s.td_location_latitude ++ ", " ++
  "td_location_longitude: " ++ toString s.td_location_longitude ++ ", " ++
  "td_location_altitude: " ++ toString s.td_location_altitude ++ ", " ++
  "td_location_time_seconds: " ++ toString s.td_location_time_seconds ++ ", " ++
  "td_location_time_nano_seconds: " ++ toString s.td_location_time_nano_seconds ++ ", " ++
  "td_location_speed_mps: " ++ toString s.td_location_speed_mps ++ ", " ++
  "td_location_orientation_degrees: " ++ toString s.td_location_orientation_degrees ++ ", " ++
  "td_confidence_level: " ++ toString s.td_confidence_level ++ ", " ++
  "td_description: \"" ++ s.td_description ++ "\", " ++
  "td_raw_data_link: \"" ++ s.td_raw_data_link ++ "\", " ++
  "ta_command: \"" ++ s.ta_command ++ "\", " ++
  "ta_location_latitude: " ++ toString s.ta_location_latitude ++ ", " ++
  "ta_location_longitude: " ++ toString s.ta_location_longitude ++ ", " ++
  "ta_location_altitude: " ++ toString s.ta_location_altitude ++ ", " ++
  "ta_location_time_seconds: " ++ toString s.ta_location_time_seconds ++ ", " ++
  "ta_location_time_nano_seconds: " ++ toString s.ta_location_time_nano_seconds ++ ", " ++
  "ta_location_speed_mps: " ++ toString s.ta_location_speed_mps ++ ", " ++
  "ta_location_orientation_degrees: " ++ toString s.ta_location_orientation_degrees ++
  "\x7d"

structure FlatMessagingPacket where
  message_type : Int
  sr_header_sender_id : String
  sr_header_time_seconds : Int
  sr_header_time_nano_seconds : Int
  sr_location_latitude : Int
  sr_location_longitude : Int
  sr_location_altitude : Int
  sr_location_time_seconds : Int
  sr_location_time_nano_seconds : Int
  sr_location_speed_mps : Int
  sr_location_orientation_degrees : Int
  sr_status_task_status : Int
  sr_status_battery_percentage : Int
  sr_status_signal_strength_dbm : Int
  sr_status_system_error : Bool
  cd_header_sender_id : String
  cd_header_time_seconds : Int
  cd_header_time_nano_seconds : Int
  cd_detection_target_ID : String
  cd_detection_target_type : Int
  cd_detection_loc_latitude : Int
  cd_detection_loc_longitude : Int
  cd_detection_loc_altitude : Int
  cd_detection_loc_time_seconds : Int
  cd_detection_loc_time_nano_seconds : Int
  cd_detection_loc_speed_mps : Int
  cd_detection_loc_orientation_degrees : Int
  cd_detection_confidence_level : Int
  cd_detection_description : String
  cd_detection_raw_data_link : String
  tc_header_sender_id : String
  tc_header_time_seconds : Int
  tc_header_time_nano_seconds : Int
  tc_receiver_id : String
  tc_assignment_command : String
  tc_assignment_loc_latitude : Int
  tc_assignment_loc_longitude : Int
  tc_assignment_loc_altitude : Int
  tc_assignment_loc_time_seconds : Int
  tc_assignment_loc_time_nano_seconds : Int
  tc_assignment_loc_speed_mps : Int
  tc_assignment_loc_orientation_degrees : Int

/-- Record formatting of `MessagingMonitor::on_data_available`
(monitor.cpp:183-229): the 42 fields in source order. -/
def formatMessaging (domain_id : Int) (n : Nat) (s : FlatMessagingPacket) : String :=
  "[domain=" ++ toString domain_id ++ "] TOPIC: messaging\n" ++
  "Sample \x27" ++ toString n ++ "\x27 RECEIVED\n" ++
  " - \x7b" ++
  "message_type: " ++ toString s.message_type ++ ", " ++
  "sr_header_sender_id: \"" ++ s.sr_header_sender_id ++ "\", " ++
  "sr_header_time_seconds: " ++ toString s.sr_header_time_seconds ++ ", " ++
  "sr_header_time_nano_seconds: " ++ toString s.sr_header_time_nano_seconds ++ ", " ++
  "sr_location_latitude: " ++ toString s.sr_location_latitude ++ ", " ++
  "sr_location_longitude: " ++ toString s.sr_location_longitude ++ ", " ++
  "sr_location_altitude: " ++ toString s.sr_location_altitude ++ ", " ++
  "sr_location_time_seconds: " ++ toString s.sr_location_time_seconds ++ ", " ++
  "sr_location_time_nano_seconds: " ++ toString s.sr_location_time_nano_seconds ++ ", " ++
  "sr_location_speed_mps: " ++ toString s.sr_location_speed_mps ++ ", " ++
  "sr_location_orientation_degrees: " ++ toString s.sr_location_orientation_degrees ++ ", " ++
  "sr_status_task_status: " ++ toString s.sr_status_task_status ++ ", " ++
  "sr_status_battery_percentage: " ++ toString s.sr_status_battery_percentage ++ ", " ++
  "sr_status_signal_strength_dbm: " ++ toString s.sr_status_signal_strength_dbm ++ ", " ++
  "sr_status_system_error: " ++ (if s.sr_status_system_error then "true" else "false") ++ ", " ++
  "cd_header_sender_id: \"" ++ s.cd_header_sender_id ++ "\", " ++
  "cd_header_time_seconds: " ++ toString s.cd_header_time_seconds ++ ", " ++
  "cd_header_time_nano_seconds: " ++ toString s.cd_header_time_nano_seconds ++ ", " ++
  "cd_detection_target_ID: \"" ++ s.cd_detection_target_ID ++ "\", " ++
  "cd_detection_target_type: " ++ toString s.cd_detection_target_type ++ ", " ++
  "cd_detection_loc_latitude: " ++ toString s.cd_detection_loc_latitude ++ ", " ++
  "cd_detection_loc_longitude: " ++ toString s.cd_detection_loc_longitude ++ ", " ++
  "cd_detection_loc_altitude: " ++ toString s.cd_detection_loc_altitude ++ ", " ++
  "cd_detection_loc_time_seconds: " ++ toString s.cd_detection_loc_time_seconds ++ ", " ++
  "cd_detection_loc_time_nano_seconds: " ++ toString s.cd_detection_loc_time_nano_seconds ++ ", " ++
  "cd_detection_loc_speed_mps: " ++ toString s.cd_detection_loc_speed_mps ++ ", " ++
  "cd_detection_loc_orientation_degrees: " ++ toString s.cd_detection_loc_orientation_degrees ++ ", " ++
  "cd_detection_confidence_level: " ++ toString s.cd_detection_confidence_level ++ ", " ++
  "cd_detection_description: \"" ++ s.cd_detection_description ++ "\", " ++
  "cd_detection_raw_data_link: \"" ++ s.cd_detection_raw_data_link ++ "\", " ++
  "tc_header_sender_id: \"" ++ s.tc_header_sender_id ++ "\", " ++
  "tc_header_time_seconds: " ++ toString s.tc_header_time_seconds ++ ", " ++
  "tc_header_time_nano_seconds: " ++ toString s.tc_header_time_nano_seconds ++ ", " ++
  "tc_receiver_id: \"" ++ s.tc_receiver_id ++ "\", " ++
  "tc_assignment_command: \"" ++ s.tc_assignment_command ++ "\", " ++
  "tc_assignment_loc_latitude: " ++ toString s.tc_assignment_loc_latitude ++ ", " ++
  "tc_assignment_loc_longitude: " ++ toString s.tc_assignment_loc_longitude ++ ", " ++
  "tc_assignment_loc_altitude: " ++ toString s.tc_assignment_loc_altitude ++ ", " ++
  "tc_assignment_loc_time_seconds: " ++ toString s.tc_assignment_loc_time_seconds ++ ", " ++
  "tc_assignment_loc_time_nano_seconds: " ++ toString s.tc_assignment_loc_time_nano_seconds ++ ", " ++
  "tc_assignment_loc_speed_mps: " ++ toString s.tc_assignment_loc_speed_mps ++ ", " ++
  "tc_assignment_loc_orientation_degrees: " ++ toString s.tc_assignment_loc_orientation_degrees ++
  "\x7d"

/-- Listener state of `CoreDataMonitor` (monitor.cpp:65-112). -/
structure CoreDataMonitor where
  samples : Nat
  domain_id : Int
deriving DecidableEq, Repr

/-- `CoreDataMonitor::on_data_available` (monitor.cpp:71-100): drain the
reader, formatting each accepted sample under the topic name reported by
the reader (empty string when the reader has no topic description,
monitor.cpp:76). -/
def CoreDataMonitor.on_data_available (m : CoreDataMonitor)
    (topic_name : Option String) (stop : Nat → Bool)
    (queue : List (SampleInfo × FlatCoreData)) : CoreDataMonitor × List String :=
  let r := drainAux (formatCoreData m.domain_id (topic_name.getD "")) stop 0 queue m.samples
  ({ m with samples := r.1 }, r.2)

/-- Listener state of `IntelligenceMonitor` (monitor.cpp:114-170). -/
structure IntelligenceMonitor where
  samples : Nat
  domain_id : Int
deriving DecidableEq, Repr

/-- `IntelligenceMonitor::on_data_available` (monitor.cpp:120-158). -/
def IntelligenceMonitor.on_data_available (m : IntelligenceMonitor)
    (stop : Nat → Bool) (queue : List (SampleInfo × FlatIntelligence)) :
    IntelligenceMonitor × List String :=
  let r := drainAux (formatIntelligence m.domain_id) stop 0 queue m.samples
  ({ m with samples := r.1 }, r.2)

/-- Listener state of `MessagingMonitor` (monitor.cpp:172-246). -/
structure MessagingMonitor where
  samples : Nat
  domain_id : Int
deriving DecidableEq, Repr

/-- `MessagingMonitor::on_data_available` (monitor.cpp:178-234). -/
def MessagingMonitor.on_data_available (m : MessagingMonitor)
    (stop : Nat → Bool) (queue : List (SampleInfo × FlatMessagingPacket)) :
    MessagingMonitor × List String :=
  let r := drainAux (formatMessaging m.domain_id) stop 0 queue m.samples
  ({ m with samples := r.1 }, r.2)

/- ## Per-domain session setup (`main`, monitor.cpp:312-397) -/

/-- Outcomes of the fallible middleware creation calls, per domain and
(for topics/readers) per topic name. -/
structure SetupOracle where
  participantOk : Int → Bool
  subscriberOk : Int → Bool
  topicOk : Int → String → Bool
  readerOk : Int → String → Bool

inductive SetupEvent : Type
  | createParticipant (d : Int) (ok : Bool)
  | createSubscriber (d : Int) (ok : Bool)
  | deleteParticipant (d : Int)
  | createTopic (d : Int) (name : String) (ok : Bool)
  | createReader (d : Int) (topic : String) (ok : Bool)
  | logError (msg : String)
  | logInfo (msg : String)
deriving DecidableEq, Repr

/-- The handle bundle of one `DomainContext` (monitor.cpp:262-281); each
boolean records whether the corresponding handle is non-null. -/
structure DomainContext where
  id : Int
  cd_topic : Bool
  cd2_topic : Bool
  cd3_topic : Bool
  cd4_topic : Bool
  intel_topic : Bool
  msg_topic : Bool
  cd_reader : Bool
  cd2_reader : Bool
  cd3_reader : Bool
  cd4_reader : Bool
  intel_reader : Bool
  msg_reader : Bool
deriving DecidableEq, Repr

/-- Reader creation for one topic (monitor.cpp:387-392): attempted only
when the topic handle is non-null. -/
def readerEvents (o : SetupOracle) (d : Int) (name : String)
    (topicPresent : Bool) : List SetupEvent :=
  if topicPresent then [SetupEvent.createReader d name (o.readerOk d name)] else []

/-- One iteration of the per-domain setup loop (monitor.cpp:312-397):
participant failure logs and skips the domain with nothing else
attempted; subscriber failure logs, deletes the participant and skips;
otherwise the six topics are created (each may individually fail), the
listeners are constructed, readers are created for each present topic,
and the context is added to the active set. -/
def setupDomain (o : SetupOracle) (d : Int) : Option DomainContext × List SetupEvent :=
  if o.participantOk d = false then
    (none,
     [SetupEvent.createParticipant d false,
      SetupEvent.logError ("Failed to create DomainParticipant for domain " ++ toString d)])
  else if o.subscriberOk d = false then
    (none,
     [SetupEvent.createParticipant d true,
      SetupEvent.logInfo ("Monitor: DomainParticipant created for domain " ++ toString d),
      SetupEvent.createSubscriber d false,
      SetupEvent.logError ("Failed to create Subscriber for domain " ++ toString d),
      SetupEvent.deleteParticipant d])
  else
    let cdT := o.topicOk d "CoreDataTopic"
    let cd2T := o.topicOk d "CoreData2Topic"
    let cd3T := o.topicOk d "CoreData3Topic"
    let cd4T := o.topicOk d "CoreData4Topic"
    let intelT := o.topicOk d "IntelligenceTopic"
    let msgT := o.topicOk d "MessagingTopic"
    let ctx : DomainContext :=
      { id := d
        cd_topic := cdT
        cd2_topic := cd2T
        cd3_topic := cd3T
        cd4_topic := cd4T
        intel_topic := intelT
        msg_topic := msgT
        cd_reader := cdT && o.readerOk d "CoreDataTopic"
        cd2_reader := cd2T && o.readerOk d "CoreData2Topic"
        cd3_reader := cd3T && o.readerOk d "CoreData3Topic"
        cd4_reader := cd4T && o.readerOk d "CoreData4Topic"
        intel_reader := intelT && o.readerOk d "IntelligenceTopic"
        msg_reader := msgT && o.readerOk d "MessagingTopic" }
    (some ctx,
     [SetupEvent.createParticipant d true,
      SetupEvent.logInfo ("Monitor: DomainParticipant created for domain " ++ toString d),
      SetupEvent.createSubscriber d true,
      SetupEvent.logInfo ("Monitor: Subscriber created for domain " ++ toString d),
      SetupEvent.createTopic d "CoreDataTopic" cdT,
      SetupEvent.createTopic d "CoreData2Topic" cd2T,
      SetupEvent.createTopic d "CoreData3Topic" cd3T,
      SetupEvent.createTopic d "CoreData4Topic" cd4T,
      SetupEvent.createTopic d "IntelligenceTopic" intelT,
      SetupEvent.createTopic d "MessagingTopic" msgT]
     ++ readerEvents o d "CoreDataTopic" cdT
     ++ readerEvents o d "CoreData2Topic" cd2T
     ++ readerEvents o d "CoreData3Topic" cd3T
     ++ readerEvents o d "CoreData4Topic" cd4T
     ++ readerEvents o d "IntelligenceTopic" intelT
     ++ readerEvents o d "MessagingTopic" msgT
     ++ [SetupEvent.logInfo ("Monitor: DataReaders created for domain " ++ toString d)])

/-- The whole setup loop over the requested domain list: the contexts
pushed to the active set, in order, and the concatenated event trace. -/
def runSetup (o : SetupOracle) : List Int → List DomainContext × List SetupEvent
  | [] => ([], [])
  | d :: rest =>
      let r := setupDomain o d
      let rr := runSetup o rest
      (r.1.toList ++ rr.1, r.2 ++ rr.2)

/- ## Output Sink concurrency model (g_io_mutex, monitor.cpp:36-37, 96-97) -/

/-- Pointwise function update used by the sink model. -/
def updF {α : Type} (f : Nat → α) (t : Nat) (v : α) : Nat → α :=
  fun u => if u = t then v else f u

/-- State of the shared console and its mutex: per-thread records still
to be written, the chunks remaining of the record a thread is currently
writing inside its critical section, the mutex holder, and the console
contents as the ordered list of written chunks tagged by writer. -/
structure SinkState where
  pending : Nat → List (List String)
  current : Nat → Option (List String)
  holder : Option Nat
  console : List (Nat × String)

/-- Interleaving semantics of the drain callbacks writing through the
sink (monitor.cpp:96-97): a thread formats its record outside the lock,
acquires `g_io_mutex` (only when free), writes the record's chunks to the
console while holding it, and releases it.  Any interleaving of these
steps across threads is allowed. -/
inductive SinkStep : SinkState → SinkState → Prop
  | enter (s : SinkState) (t : Nat) (r : List String) (rest : List (List String))
      (hfree : s.holder = none) (hpend : s.pending t = r :: rest) :
      SinkStep s { s with holder := some t,
                          current := updF s.current t (some r),
                          pending := updF s.pending t rest }
  | emit (s : SinkState) (t : Nat) (c : String) (cs : List String)
      (hhold : s.holder = some t) (hcur : s.current t = some (c :: cs)) :
      SinkStep s { s with current := updF s.current t (some cs),
                          console := s.console ++ [(t, c)] }
  | leave (s : SinkState) (t : Nat)
      (hhold : s.holder = some t) (hcur : s.current t = some []) :
      SinkStep s { s with holder := none, current := updF s.current t none }

/-- Initial sink state for a given assignment of records to threads. -/
def sinkInit (orig : Nat → List (List String)) : SinkState :=
  { pending := orig, current := fun _ => none, holder := none, console := [] }

/-- Reachability under the sink interleaving semantics. -/
def SinkReaches : SinkState → SinkState → Prop :=
  Relation.ReflTransGen SinkStep

/-- Console contents obtained by writing a list of records back to back,
each tagged with its writing thread. -/
def renderBlocks (blocks : List (Nat × List String)) : List (Nat × String) :=
  (blocks.map (fun b => b.2.map (fun c => (b.1, c)))).flatten

/-- A console is non-interleaved for a record assignment when it is a
back-to-back concatenation of complete records, each one of the records
of the thread that wrote it. -/
def NonInterleaved (orig : Nat → List (List String))
    (console : List (Nat × String)) : Prop :=
  ∃ blocks : List (Nat × List String),
    console = renderBlocks blocks ∧ ∀ b ∈ blocks, b.2 ∈ orig b.1

/- ## Concrete instances used by the witnesses -/

/-- Oracle in which participant creation fails for domain 3 and
subscriber creation fails for domain 4. -/
def witnessOracle : SetupOracle :=
  { participantOk := fun d => decide (d ≠ 3)
    subscriberOk := fun d => decide (d ≠ 4)
    topicOk := fun _ _ => true
    readerOk := fun _ _ => true }

/-- Two threads with one two-chunk record each. -/
def sinkOrigW : Nat → List (List String) :=
  fun t => if t = 0 then [["A1", "A2"]] else if t = 1 then [["B1", "B2"]] else []

def sW0 : SinkState := sinkInit sinkOrigW

def sW1 : SinkState :=
  { sW0 with holder := some 0, current := updF sW0.current 0 (some ["A1", "A2"]),
             pending := updF sW0.pending 0 [] }

def sW2 : SinkState :=
  { sW1 with current := updF sW1.current 0 (some ["A2"]),
             console := sW1.console ++ [(0, "A1")] }

def sW3 : SinkState :=
  { sW2 with current := updF sW2.current 0 (some []),
             console := sW2.console ++ [(0, "A2")] }

def sW4 : SinkState :=
  { sW3 with holder := none, current := updF sW3.current 0 none }

def sW5 : SinkState :=
  { sW4 with holder := some 1, current := updF sW4.current 1 (some ["B1", "B2"]),
             pending := updF sW4.pending 1 [] }

def sW6 : SinkState :=
  { sW5 with current := updF sW5.current 1 (some ["B2"]),
             console := sW5.console ++ [(1, "B1")] }

def sW7 : SinkState :=
  { sW6 with current := updF sW6.current 1 (some []),
             console := sW6.console ++ [(1, "B2")] }

def sW8 : SinkState :=
  { sW7 with holder := none, current := updF sW7.current 1 none }

/-- Stop-flag reading that turns true from the second iteration on. -/
def stopAt2 : Nat → Bool := fun j => decide (2 ≤ j)

/-- A concrete three-sample queue of accepted samples. -/
def qW : List (SampleInfo × Nat) :=
  [(⟨InstanceState.alive, true⟩, 10),
   (⟨InstanceState.alive, true⟩, 11),
   (⟨InstanceState.alive, true⟩, 12)]

/-- A concrete format function on numeric payloads. -/
def fmtW : Nat → Nat → String := fun n x => toString n ++ ":" ++ toString x

/-- Invariant of the sink interleaving semantics: pending records come
from the original assignment; with the mutex free, no thread is mid-write
and the console is a concatenation of complete records; with the mutex
held by `t`, only `t` is mid-write and the console is a concatenation of
complete records followed by the already-emitted prefix of the record `t`
is writing. -/
def SinkInv (orig : Nat → List (List String)) (s : SinkState) : Prop :=
  (∀ t, ∀ r ∈ s.pending t, r ∈ orig t) ∧
  match s.holder with
  | none => (∀ t, s.current t = none) ∧ NonInterleaved orig s.console
  | some t =>
      (∀ u, u ≠ t → s.current u = none) ∧
      ∃ rem emitted blocks,
        s.current t = some rem ∧
        (∀ b ∈ blocks, b.2 ∈ orig b.1) ∧
        (emitted ++ rem) ∈ orig t ∧
        s.console = renderBlocks blocks ++ emitted.map (fun c => (t, c))

/- ## Helper lemmas about characters and `atoi` -/

theorem isDigit_ne_dash {c : Char} (h : c.isDigit = true) : c ≠ '-' := by
  intro he
  rw [he] at h
  exact absurd h (by decide)

theorem isDigit_ne_plus {c : Char} (h : c.isDigit = true) : c ≠ '+' := by
  intro he
  rw [he] at h
  exact absurd h (by decide)

theorem digit_not_space {c : Char} (h : c.isDigit = true) : isSpaceC c = false := by
  by_contra hne
  have ht : isSpaceC c = true := by
    cases hb : isSpaceC c
    · exact absurd hb hne
    · rfl
  simp only [isSpaceC, Bool.or_eq_true, decide_eq_true_eq] at ht
  rcases ht with (((( h1 | h1 ) | h1 ) | h1 ) | h1 ) | h1 <;>
    rw [h1] at h <;> exact absurd h (by decide)

theorem atoiLoop_eq_foldl (cs : List Char) (h : ∀ c ∈ cs, c.isDigit = true) :
    ∀ a : Int, atoiLoop cs a = cs.foldl (fun x c => x * 10 + ((c.toNat : Int) - 48)) a := by
  induction cs with
  | nil => intro a; rfl
  | cons c cs ih =>
      intro a
      have hc : c.isDigit = true := h c (List.mem_cons_self c cs)
      simp only [atoiLoop, if_pos hc, List.foldl_cons]
      exact ih (fun d hd => h d (List.mem_cons_of_mem _ hd)) _

theorem cppAtoi_digits (cs : List Char) (h1 : cs ≠ [])
    (h2 : ∀ c ∈ cs, c.isDigit = true) : cppAtoi cs = digitsToInt cs := by
  cases cs with
  | nil => exact absurd rfl h1
  | cons c rest =>
      have hc : c.isDigit = true := h2 c (List.mem_cons_self c rest)
      have hsp : isSpaceC c = false := digit_not_space hc
      have hdrop : (c :: rest).dropWhile isSpaceC = c :: rest := by
        rw [List.dropWhile_cons, hsp]
        simp
      unfold cppAtoi
      rw [hdrop]
      show (if c = '-' then - atoiLoop rest 0
            else if c = '+' then atoiLoop rest 0
            else atoiLoop (c :: rest) 0) = digitsToInt (c :: rest)
      rw [if_neg (isDigit_ne_dash hc), if_neg (isDigit_ne_plus hc),
          atoiLoop_eq_foldl (c :: rest) h2 0]
      rfl

theorem atoiLoop_no_digit (cs : List Char) (h : ∀ c ∈ cs, c.isDigit = false) :
    atoiLoop cs 0 = 0 := by
  cases cs with
  | nil => rfl
  | cons c rest =>
      have hc : c.isDigit = false := h c (List.mem_cons_self c rest)
      simp only [atoiLoop, hc]
      simp

theorem cppAtoi_no_digit (cs : List Char) (hnd : ∀ c ∈ cs, c.isDigit = false)
    (hdash : '-' ∉ cs) : cppAtoi cs = 0 := by
  have hsub : ∀ c ∈ cs.dropWhile isSpaceC, c ∈ cs :=
    fun c hc => (List.dropWhile_sublist (p := isSpaceC) (l := cs)).mem hc
  unfold cppAtoi
  cases hds : cs.dropWhile isSpaceC with
  | nil => rfl
  | cons c rest =>
      have hcmem : c ∈ cs := hsub c (hds ▸ List.mem_cons_self c rest)
      have hcd : c ≠ '-' := fun he => hdash (he ▸ hcmem)
      have hrest : ∀ d ∈ rest, d.isDigit = false :=
        fun d hd => hnd d (hsub d (hds ▸ List.mem_cons_of_mem _ hd))
      show (if c = '-' then - atoiLoop rest 0
            else if c = '+' then atoiLoop rest 0
            else atoiLoop (c :: rest) 0) = 0
      rw [if_neg hcd]
      by_cases hp : c = '+'
      · rw [if_pos hp]
        exact atoiLoop_no_digit rest hrest
      · rw [if_neg hp]
        exact atoiLoop_no_digit (c :: rest)
          (fun d hd => hnd d (hsub d (hds ▸ hd)))

/- ## Helper lemmas about `findDash` -/

theorem findDash_eq_none (cs : List Char) (h : ∀ c ∈ cs, c ≠ '-') :
    findDash cs = none := by
  induction cs with
  | nil => rfl
  | cons c cs ih =>
      simp only [findDash, if_neg (h c (List.mem_cons_self c cs))]
      rw [ih (fun d hd => h d (List.mem_cons_of_mem _ hd))]
      rfl

theorem findDash_append (a b : List Char) (h : ∀ c ∈ a, c ≠ '-') :
    findDash (a ++ '-' :: b) = some a.length := by
  induction a with
  | nil => simp [findDash]
  | cons c cs ih =>
      simp only [List.cons_append, findDash, if_neg (h c (List.mem_cons_self c cs)),
        List.append_eq]
      rw [ih (fun d hd => h d (List.mem_cons_of_mem _ hd))]
      rfl

/- ## Claim C1 -/

/-- C1 (code evaluated at the failing input): the reader-level QoS that
`main` passes to every `create_datareader` call does request reliable
delivery, transient-local durability and keep-all history, but the
`rtps.payload_protection=ENCRYPT` property is NOT present in it: the
`get_default_datareader_qos(rqos)` call at monitor.cpp:358 overwrites the
QoS object after the property was appended at monitor.cpp:357, discarding
it.  The claim's encryption clause therefore fails on the code, although
the source comment "Payload Encryption Configuration" shows it is the
intent. -/
theorem c1_reader_qos_lacks_payload_protection :
    buildReaderQos.reliabilityKind = ReliabilityKind.reliable ∧
    buildReaderQos.durabilityKind = DurabilityKind.transientLocal ∧
    buildReaderQos.historyKind = HistoryKind.keepAll ∧
    ("rtps.payload_protection", "ENCRYPT") ∉ buildReaderQos.properties := by
  refine ⟨rfl, rfl, rfl, ?_⟩
  simp [buildReaderQos, subscriberDefaultReaderQos, DATAREADER_QOS_DEFAULT]

/- ## Claim C6 -/

/-- C6: the four first-record-kind topic names map to four pairwise
distinct display labels (the canonical name's own label coinciding with
the generic label), and every name other than the three numbered variants
-- the canonical name and arbitrary strings included -- maps to the
generic label "coredata". -/
theorem c6_topic_classifier :
    classifyCoreTopic "CoreDataTopic" = "coredata" ∧
    classifyCoreTopic "CoreData2Topic" = "coredata2" ∧
    classifyCoreTopic "CoreData3Topic" = "coredata3" ∧
    classifyCoreTopic "CoreData4Topic" = "coredata4" ∧
    List.Pairwise (fun x y => x ≠ y)
      ["coredata", "coredata2", "coredata3", "coredata4"] ∧
    ∀ name : String,
      name ∉ (["CoreData2Topic", "CoreData3Topic", "CoreData4Topic"] : List String) →
      classifyCoreTopic name = "coredata" := by
  refine ⟨rfl, rfl, rfl, rfl, by decide, ?_⟩
  intro name h
  simp only [List.mem_cons, List.not_mem_nil, or_false, not_or] at h
  obtain ⟨h2, h3, h4⟩ := h
  unfold classifyCoreTopic
  by_cases he : name = ""
  · simp [he]
  · simp [he, h2, h3, h4]

/-- Witness for C6: evaluation at the canonical name and at an arbitrary
other name. -/
theorem c6_witness :
    classifyCoreTopic "CoreDataTopic" = "coredata" ∧
    classifyCoreTopic "WeatherTopic" = "coredata" := by
  refine ⟨c6_topic_classifier.1, ?_⟩
  exact c6_topic_classifier.2.2.2.2.2 "WeatherTopic" (by decide)

/- ## Claim C10 -/

/-- C10: when a non-empty command-line argument is supplied but parses to
the empty domain list, the environment specification is never consulted
-- the selection is identical for every environment value -- and the
compiled-in default domain list is used. -/
theorem c10_empty_parse_skips_env (a : String) (env env2 : Option String)
    (hlen : 0 < a.length) (hparse : parse_domains_from_input a = []) :
    chooseDomains (some a) env = [0, 1, 2, 3, 4, 5] ∧
    chooseDomains (some a) env = chooseDomains (some a) env2 := by
  constructor
  · simp [chooseDomains, hlen, hparse]
  · simp [chooseDomains, hlen, hparse]

/-- Witness for C10: the argument "," is non-empty yet parses to the
empty list; the selection ignores the environment and yields the default
list. -/
theorem c10_witness :
    chooseDomains (some ",") (some "7") = [0, 1, 2, 3, 4, 5] ∧
    chooseDomains (some ",") (some "7") = chooseDomains (some ",") none :=
  c10_empty_parse_skips_env "," (some "7") none (by decide) (by decide)

/- ## Claim C2 -/

theorem processToken_shape (cs : List Char) (sh : DomToken) (h : TokenShape cs sh) :
    processTokenChars cs = expandShape sh := by
  cases h with
  | single cs h1 h2 =>
      unfold processTokenChars
      rw [if_neg h1, findDash_eq_none cs (fun c hc => isDigit_ne_dash (h2 c hc))]
      show [cppAtoi cs] = expandShape (DomToken.single (digitsToInt cs))
      rw [cppAtoi_digits cs h1 h2]
      rfl
  | range a b ha hb ha2 hb2 =>
      have hne : a ++ '-' :: b ≠ [] := by simp
      have ht : (a ++ '-' :: b).take a.length = a := List.take_left a ('-' :: b)
      have hd : (a ++ '-' :: b).drop (a.length + 1) = b := by
        have he : a ++ '-' :: b = (a ++ ['-']) ++ b := by simp
        have hl : a.length + 1 = (a ++ ['-']).length := by simp
        rw [he, hl, List.drop_left]
      unfold processTokenChars
      rw [if_neg hne, findDash_append a b (fun c hc => isDigit_ne_dash (ha2 c hc))]
      show rangeBranch (a ++ '-' :: b) a.length
          = expandShape (DomToken.range (digitsToInt a) (digitsToInt b))
      unfold rangeBranch
      rw [ht, hd, if_pos ⟨ha, hb⟩, cppAtoi_digits a ha ha2, cppAtoi_digits b hb hb2]
      by_cases hlt : digitsToInt b < digitsToInt a
      · rw [if_pos hlt]
        show cppForRange (digitsToInt b) (digitsToInt a)
            = ascSeq (min (digitsToInt a) (digitsToInt b))
                (max (digitsToInt a) (digitsToInt b))
        rw [min_eq_right (le_of_lt hlt), max_eq_left (le_of_lt hlt)]
        rfl
      · rw [if_neg hlt]
        have hle : digitsToInt a ≤ digitsToInt b := not_lt.mp hlt
        show cppForRange (digitsToInt a) (digitsToInt b)
            = ascSeq (min (digitsToInt a) (digitsToInt b))
                (max (digitsToInt a) (digitsToInt b))
        rw [min_eq_left hle, max_eq_right hle]
        rfl

/-- C2: for every input string whose comma tokens are all valid domain
tokens (single non-negative integers or hyphenated ranges), the parser
output is the concatenation, in input token order, of each token's
spec-side expansion -- a single integer stands for itself, a range
expands to the ascending inclusive sequence between its endpoints -- and
the expansion of a range is insensitive to the order of its endpoints. -/
theorem c2_parser_range_expansion (input : String) (toks : List (List Char))
    (shapes : List DomToken)
    (hsplit : cppGetlineTokens input.data = toks)
    (hshapes : List.Forall₂ TokenShape toks shapes) :
    parse_domains_from_input input = (shapes.map expandShape).flatten ∧
    ∀ a b : Int, expandShape (DomToken.range a b) = expandShape (DomToken.range b a) := by
  constructor
  · unfold parse_domains_from_input
    rw [hsplit]
    clear hsplit
    induction hshapes with
    | nil => rfl
    | cons h htl ih =>
        simp only [List.map_cons, List.flatten_cons, ih, processToken_shape _ _ h]
  · intro a b
    show ascSeq (min a b) (max a b) = ascSeq (min b a) (max b a)
    rw [min_comm a b, max_comm a b]

/-- Witness for C2 at the spec's own example: "5-3" yields [3,4,5]. -/
theorem c2_witness : parse_domains_from_input "5-3" = [3, 4, 5] := by
  have h5 : digitsToInt ['5'] = 5 := by decide
  have h3 : digitsToInt ['3'] = 3 := by decide
  have hshape : TokenShape ['5', '-', '3'] (DomToken.range 5 3) := by
    have h := TokenShape.range ['5'] ['3'] (by decide) (by decide)
      (by decide) (by decide)
    rw [h5, h3] at h
    exact h
  have h := (c2_parser_range_expansion "5-3" [['5', '-', '3']] [DomToken.range 5 3]
    (by decide) (List.Forall₂.cons hshape List.Forall₂.nil)).1
  rw [h]
  decide

/- ## Claim C8 -/

/-- C8 counterexample: the single token of the input "-x" is non-numeric,
yet the parser output is the empty sequence, not [0]: the token contains
a hyphen, so the range branch runs, and the substring before the hyphen
is empty, so nothing is pushed at all. -/
theorem c8_counterexample :
    parse_domains_from_input "-x" = [] ∧ ([] : List Int) ≠ [0] := by
  constructor
  · decide
  · decide

theorem flatten_skip_empty (ts : List (List Char)) :
    (ts.map processTokenChars).flatten
      = ((ts.filter (fun t => !t.isEmpty)).map processTokenChars).flatten := by
  induction ts with
  | nil => rfl
  | cons t ts ih =>
      by_cases h : t = []
      · subst h
        have h0 : processTokenChars [] = [] := rfl
        simp [List.filter_cons, h0, ih]
      · have hne : (!t.isEmpty) = true := by
          cases t
          · exact absurd rfl h
          · rfl
        simp [List.filter_cons, hne, ih]

/-- C8 amended: empty tokens contribute nothing to the output; a
non-numeric token WITHOUT a hyphen parses to the numeric-conversion
default zero and contributes the identifier 0; but a token containing a
hyphen is treated as a range and, when the substring before or after its
first hyphen is empty (as in "-x"), it contributes nothing at all rather
than 0. -/
theorem c8_amended_token_rules :
    (∀ input : String,
      parse_domains_from_input input
        = (((cppGetlineTokens input.data).filter (fun t => !t.isEmpty)).map
            processTokenChars).flatten) ∧
    (∀ cs : List Char, cs ≠ [] → '-' ∉ cs → (∀ c ∈ cs, c.isDigit = false) →
      processTokenChars cs = [0]) ∧
    (∀ b : List Char, processTokenChars ('-' :: b) = []) ∧
    (∀ a : List Char, a ≠ [] → '-' ∉ a → processTokenChars (a ++ ['-']) = []) := by
  refine ⟨?_, ?_, ?_, ?_⟩
  · intro input
    unfold parse_domains_from_input
    exact flatten_skip_empty _
  · intro cs h1 hd hnd
    unfold processTokenChars
    rw [if_neg h1, findDash_eq_none cs (fun c hc he => hd (he ▸ hc))]
    show [cppAtoi cs] = [0]
    rw [cppAtoi_no_digit cs hnd hd]
  · intro b
    have hne : ('-' :: b) ≠ [] := by simp
    have hf : findDash ('-' :: b) = some 0 := by simp [findDash]
    unfold processTokenChars
    rw [if_neg hne, hf]
    show rangeBranch ('-' :: b) 0 = []
    unfold rangeBranch
    simp
  · intro a ha hd
    have hne : a ++ ['-'] ≠ [] := by simp
    have hf : findDash (a ++ ['-']) = some a.length :=
      findDash_append a [] (fun c hc he => hd (he ▸ hc))
    have hdrop : (a ++ ['-']).drop (a.length + 1) = [] := by
      apply List.drop_eq_nil_of_le
      simp
    unfold processTokenChars
    rw [if_neg hne, hf]
    show rangeBranch (a ++ ['-']) a.length = []
    unfold rangeBranch
    rw [hdrop]
    simp

/-- Witness for C8 (amended): evaluation of the token rules at concrete
tokens and a concrete input. -/
theorem c8_amended_witness :
    processTokenChars ['x'] = [0] ∧
    processTokenChars ['-', 'x'] = [] ∧
    processTokenChars (['x'] ++ ['-']) = [] ∧
    parse_domains_from_input ",x"
      = (((cppGetlineTokens (String.data ",x")).filter (fun t => !t.isEmpty)).map
          processTokenChars).flatten := by
  refine ⟨?_, ?_, ?_, ?_⟩
  · exact c8_amended_token_rules.2.1 ['x'] (by decide) (by decide) (by decide)
  · exact c8_amended_token_rules.2.2.1 ['x']
  · exact c8_amended_token_rules.2.2.2 ['x'] (by decide) (by decide)
  · exact c8_amended_token_rules.1 ",x"

/- ## Drain-loop helper lemmas -/

theorem drainAux_eq {α : Type} (fmt : Nat → α → String) (stop : Nat → Bool) :
    ∀ (queue : List (SampleInfo × α)) (i cnt : Nat),
    drainAux fmt stop i queue cnt
      = (cnt + (acceptedPulled stop i queue).length,
         numberedFormats fmt cnt (acceptedPulled stop i queue)) := by
  intro queue
  induction queue with
  | nil =>
      intro i cnt
      by_cases h : stop i = true <;>
        simp [drainAux, h, acceptedPulled, pulledWhile, numberedFormats]
  | cons p rest ih =>
      intro i cnt
      obtain ⟨info, s⟩ := p
      by_cases h : stop i = true
      · simp [drainAux, h, acceptedPulled, pulledWhile, numberedFormats]
      · by_cases hacc : acceptSample info = true
        · simp only [drainAux, h, hacc, if_true, if_false, Bool.false_eq_true,
            acceptedPulled, pulledWhile, List.filter_cons, List.map_cons,
            numberedFormats, ih, ite_true, ite_false]
          rw [Prod.mk.injEq]
          constructor
          · simp only [List.length_cons]
            omega
          · rfl
        · simp only [drainAux, h, hacc, if_true, if_false, Bool.false_eq_true,
            acceptedPulled, pulledWhile, List.filter_cons, List.map_cons,
            numberedFormats, ih, ite_true, ite_false]

theorem pulledWhile_no_stop {α : Type} (stop : Nat → Bool) (h : ∀ j, stop j = false) :
    ∀ (queue : List α) (i : Nat), pulledWhile stop i queue = queue := by
  intro queue
  induction queue with
  | nil => intro i; rfl
  | cons p rest ih =>
      intro i
      simp [pulledWhile, h i, ih]

theorem pulledWhile_length_le {α : Type} (stop : Nat → Bool) :
    ∀ (queue : List α) (i k : Nat), stop (i + k) = true →
      (pulledWhile stop i queue).length ≤ k := by
  intro queue
  induction queue with
  | nil => intro i k hk; simp [pulledWhile]
  | cons p rest ih =>
      intro i k hk
      by_cases h : stop i = true
      · simp [pulledWhile, h]
      · cases k with
        | zero =>
            rw [Nat.add_zero] at hk
            exact absurd hk h
        | succ k =>
            have hk2 : stop (i + 1 + k) = true := by
              have he : i + 1 + k = i + (k + 1) := by omega
              rw [he]
              exact hk
            have hle := ih (i + 1) k hk2
            simp only [pulledWhile, h, Bool.false_eq_true, if_false, ite_false,
              List.length_cons]
            omega

/- ## Claim C3 -/

/-- C3: in every drain loop the console writes are exactly the numbered
formats of the accepted (alive-instance, valid-data) samples among those
pulled, and the counter advances exactly by their number.  A pulled
sample whose instance state is not alive, or whose valid-data flag is
false, is filtered out: it is never formatted, never increments the
counter, and never reaches the output sink. -/
theorem c3_rejected_never_output {α : Type} (fmt : Nat → α → String)
    (stop : Nat → Bool) (i cnt : Nat) (queue : List (SampleInfo × α)) :
    (drainAux fmt stop i queue cnt).2
      = numberedFormats fmt cnt
          (((pulledWhile stop i queue).filter (fun p => acceptSample p.1)).map Prod.snd) ∧
    (drainAux fmt stop i queue cnt).1
      = cnt + ((pulledWhile stop i queue).filter (fun p => acceptSample p.1)).length := by
  rw [drainAux_eq]
  unfold acceptedPulled
  exact ⟨rfl, by simp⟩

/- ## Claim C4 -/

/-- C4: across a whole session of drain invocations on one listener, the
counter increases by exactly one per accepted sample -- the final value
is the initial value plus the total number of accepted samples -- and it
is never decremented or reset (monotone along the session).  Every
sequence line printed carries the post-increment counter value: the k-th
accepted sample of an invocation entered with counter value c is
formatted with number c + k + 1, and the next invocation continues from
the carried-over counter. -/
theorem c4_counter_strict_increment {α : Type} (fmt : Nat → α → String)
    (calls : List ((Nat → Bool) × List (SampleInfo × α))) (cnt : Nat) :
    (runDrains fmt calls cnt).1
      = cnt + (calls.map (fun c => (acceptedPulled c.1 0 c.2).length)).sum ∧
    cnt ≤ (runDrains fmt calls cnt).1 ∧
    (runDrains fmt calls cnt).2 = drainsFormats fmt calls cnt := by
  induction calls generalizing cnt with
  | nil => exact ⟨by simp [runDrains], le_refl _, rfl⟩
  | cons c calls ih =>
      obtain ⟨stop, queue⟩ := c
      obtain ⟨ih1, ih2, ih3⟩ := ih (cnt + (acceptedPulled stop 0 queue).length)
      have hd := drainAux_eq fmt stop queue 0 cnt
      refine ⟨?_, ?_, ?_⟩
      · simp only [runDrains, hd, List.map_cons, List.sum_cons]
        rw [ih1]
        omega
      · simp only [runDrains, hd]
        exact le_trans (Nat.le_add_right cnt _) ih2
      · simp only [runDrains, hd, drainsFormats]
        rw [ih3]

/- ## Claim C5 -/

/-- C5: once the drain loop observes the stop flag set it pulls no
further sample and writes nothing more (a loop entered with the flag set
returns immediately, so no new drain iteration starts after the flag is
set); with the flag never set the loop ends exactly when the reader has
no more samples, processing the entire queue; and if the flag reads true
at iteration i + k, at most k samples are pulled after iteration i. -/
theorem c5_stop_bounds_drain {α : Type} (fmt : Nat → α → String) (stop : Nat → Bool)
    (i cnt : Nat) (queue : List (SampleInfo × α)) :
    (stop i = true → drainAux fmt stop i queue cnt = (cnt, [])) ∧
    ((∀ j, stop j = false) →
      drainAux fmt stop i queue cnt
        = (cnt + (queue.filter (fun p => acceptSample p.1)).length,
           numberedFormats fmt cnt
             ((queue.filter (fun p => acceptSample p.1)).map Prod.snd))) ∧
    (∀ k, stop (i + k) = true → (pulledWhile stop i queue).length ≤ k) := by
  refine ⟨?_, ?_, ?_⟩
  · intro h
    cases queue <;> simp [drainAux, h]
  · intro h
    rw [drainAux_eq]
    unfold acceptedPulled
    rw [pulledWhile_no_stop stop h queue i]
    simp
  · intro k hk
    exact pulledWhile_length_le stop queue i k hk

/-- Witness for C5: with the flag set from iteration 2 on, a loop entered
at iteration 2 pulls nothing; with the flag never set, the three-sample
queue is fully drained and numbered 1..3; and at most 2 samples are
pulled when the flag turns true at iteration 2. -/
theorem c5_witness :
    drainAux fmtW stopAt2 2 qW 7 = (7, []) ∧
    drainAux fmtW (fun _ => false) 0 qW 0 = (3, ["1:10", "2:11", "3:12"]) ∧
    (pulledWhile stopAt2 0 qW).length ≤ 2 := by
  refine ⟨?_, ?_, ?_⟩
  · exact (c5_stop_bounds_drain fmtW stopAt2 2 7 qW).1 (by decide)
  · have h := (c5_stop_bounds_drain fmtW (fun _ => false) 0 0 qW).2.1 (fun j => rfl)
    rw [h]
    decide
  · exact (c5_stop_bounds_drain fmtW stopAt2 0 7 qW).2.2 2 (by decide)

/- ## Claim C7 -/

theorem runSetup_append (o : SetupOracle) (ds1 ds2 : List Int) :
    runSetup o (ds1 ++ ds2)
      = ((runSetup o ds1).1 ++ (runSetup o ds2).1,
         (runSetup o ds1).2 ++ (runSetup o ds2).2) := by
  induction ds1 with
  | nil => simp [runSetup]
  | cons d ds ih =>
      simp only [List.cons_append, runSetup, ih]
      simp [ih, List.append_assoc]

/-- C7: per-domain setup failures are isolated.  If participant creation
fails for a domain, the failure is logged and nothing else happens for
that domain: no subscriber, topic or reader creation event occurs and no
session context is added.  If the participant is created but subscriber
creation fails, the failure is logged, the participant is deleted, and
the domain is likewise skipped with no topic or reader attempted.  In
both cases the processing of the other requested domains is exactly what
it would be on its own: the run over any domain list decomposes into the
independent per-domain results. -/
theorem c7_setup_failure_isolation (o : SetupOracle) (d : Int) :
    (o.participantOk d = false →
      setupDomain o d
        = (none,
           [SetupEvent.createParticipant d false,
            SetupEvent.logError
              ("Failed to create DomainParticipant for domain " ++ toString d)])) ∧
    (o.participantOk d = true → o.subscriberOk d = false →
      setupDomain o d
        = (none,
           [SetupEvent.createParticipant d true,
            SetupEvent.logInfo
              ("Monitor: DomainParticipant created for domain " ++ toString d),
            SetupEvent.createSubscriber d false,
            SetupEvent.logError
              ("Failed to create Subscriber for domain " ++ toString d),
            SetupEvent.deleteParticipant d])) ∧
    (∀ ds1 ds2 : List Int,
      runSetup o (ds1 ++ d :: ds2)
        = ((runSetup o ds1).1 ++ (setupDomain o d).1.toList ++ (runSetup o ds2).1,
           (runSetup o ds1).2 ++ (setupDomain o d).2 ++ (runSetup o ds2).2)) := by
  refine ⟨?_, ?_, ?_⟩
  · intro h
    simp [setupDomain, h]
  · intro h1 h2
    simp [setupDomain, h1, h2]
  · intro ds1 ds2
    rw [runSetup_append o ds1 (d :: ds2)]
    simp only [runSetup]
    simp [List.append_assoc]

/-- Witness for C7: under `witnessOracle`, participant creation fails for
domain 3, subscriber creation fails for domain 4, and the run over
`[1, 3, 5]` splits into the independent per-domain results. -/
theorem c7_witness :
    setupDomain witnessOracle 3
      = (none,
         [SetupEvent.createParticipant 3 false,
          SetupEvent.logError
            ("Failed to create DomainParticipant for domain " ++ toString (3 : Int))]) ∧
    setupDomain witnessOracle 4
      = (none,
         [SetupEvent.createParticipant 4 true,
          SetupEvent.logInfo
            ("Monitor: DomainParticipant created for domain " ++ toString (4 : Int)),
          SetupEvent.createSubscriber 4 false,
          SetupEvent.logError
            ("Failed to create Subscriber for domain " ++ toString (4 : Int)),
          SetupEvent.deleteParticipant 4]) ∧
    runSetup witnessOracle ([1] ++ 3 :: [5])
      = ((runSetup witnessOracle [1]).1 ++ (setupDomain witnessOracle 3).1.toList
           ++ (runSetup witnessOracle [5]).1,
         (runSetup witnessOracle [1]).2 ++ (setupDomain witnessOracle 3).2
           ++ (runSetup witnessOracle [5]).2) := by
  refine ⟨?_, ?_, ?_⟩
  · exact (c7_setup_failure_isolation witnessOracle 3).1 (by decide)
  · exact (c7_setup_failure_isolation witnessOracle 4).2.1 (by decide) (by decide)
  · exact (c7_setup_failure_isolation witnessOracle 3).2.2 [1] [5]

/- ## Claim C9 -/

theorem renderBlocks_append (b1 b2 : List (Nat × List String)) :
    renderBlocks (b1 ++ b2) = renderBlocks b1 ++ renderBlocks b2 := by
  simp [renderBlocks]

theorem sinkInv_init (orig : Nat → List (List String)) :
    SinkInv orig (sinkInit orig) := by
  refine ⟨fun t r hr => hr, ?_⟩
  show (∀ t, (sinkInit orig).current t = none) ∧
    NonInterleaved orig (sinkInit orig).console
  exact ⟨fun t => rfl, ⟨[], rfl, by simp⟩⟩

theorem sinkInv_step (orig : Nat → List (List String)) (s s2 : SinkState)
    (hstep : SinkStep s s2) (hinv : SinkInv orig s) : SinkInv orig s2 := by
  obtain ⟨hpend, hrest⟩ := hinv
  cases hstep with
  | enter t r rest hfree hpend2 =>
      rw [hfree] at hrest
      obtain ⟨hcur, blocks, hcons, hblocks⟩ := hrest
      refine ⟨?_, ?_⟩
      · intro u x hx
        have hx2 : x ∈ updF s.pending t rest u := hx
        by_cases hu : u = t
        · subst hu
          rw [show updF s.pending u rest u = rest from by simp [updF]] at hx2
          exact hpend u x (by rw [hpend2]; exact List.mem_cons_of_mem r hx2)
        · rw [show updF s.pending t rest u = s.pending u from by simp [updF, hu]] at hx2
          exact hpend u x hx2
      · show (∀ u, u ≠ t → updF s.current t (some r) u = none) ∧
          ∃ rem emitted blocks2,
            updF s.current t (some r) t = some rem ∧
            (∀ b ∈ blocks2, b.2 ∈ orig b.1) ∧
            (emitted ++ rem) ∈ orig t ∧
            s.console = renderBlocks blocks2 ++ emitted.map (fun c => (t, c))
        refine ⟨?_, r, [], blocks, ?_, hblocks, ?_, ?_⟩
        · intro u hu
          rw [show updF s.current t (some r) u = s.current u from by simp [updF, hu]]
          exact hcur u
        · simp [updF]
        · simp only [List.nil_append]
          exact hpend t r (by rw [hpend2]; exact List.mem_cons_self r rest)
        · rw [hcons]
          simp
  | emit t c cs hhold hcur2 =>
      rw [hhold] at hrest
      obtain ⟨hothers, rem, emitted, blocks, hcur3, hblocks, hmem, hcons⟩ := hrest
      have hceq : c :: cs = rem := by
        rw [hcur2] at hcur3
        exact Option.some.inj hcur3
      refine ⟨?_, ?_⟩
      · intro u x hx
        exact hpend u x hx
      · rw [show ({ s with
                      current := updF s.current t (some cs),
                      console := s.console ++ [(t, c)] } : SinkState).holder
              = some t from hhold]
        show (∀ u, u ≠ t → updF s.current t (some cs) u = none) ∧
          ∃ rem2 emitted2 blocks2,
            updF s.current t (some cs) t = some rem2 ∧
            (∀ b ∈ blocks2, b.2 ∈ orig b.1) ∧
            (emitted2 ++ rem2) ∈ orig t ∧
            s.console ++ [(t, c)] = renderBlocks blocks2 ++ emitted2.map (fun x => (t, x))
        refine ⟨?_, cs, emitted ++ [c], blocks, ?_, hblocks, ?_, ?_⟩
        · intro u hu
          rw [show updF s.current t (some cs) u = s.current u from by simp [updF, hu]]
          exact hothers u hu
        · simp [updF]
        · rw [show (emitted ++ [c]) ++ cs = emitted ++ rem from by rw [← hceq]; simp]
          exact hmem
        · rw [hcons]
          simp
  | leave t hhold hcur2 =>
      rw [hhold] at hrest
      obtain ⟨hothers, rem, emitted, blocks, hcur3, hblocks, hmem, hcons⟩ := hrest
      have hrnil : rem = [] := by
        rw [hcur2] at hcur3
        exact (Option.some.inj hcur3).symm
      refine ⟨?_, ?_⟩
      · intro u x hx
        exact hpend u x hx
      · show (∀ u, updF s.current t none u = none) ∧
          NonInterleaved orig s.console
        constructor
        · intro u
          by_cases hu : u = t
          · subst hu
            simp [updF]
          · rw [show updF s.current t none u = s.current u from by simp [updF, hu]]
            exact hothers u hu
        · refine ⟨blocks ++ [(t, emitted)], ?_, ?_⟩
          · rw [renderBlocks_append, hcons]
            simp [renderBlocks]
          · intro b hb
            rcases List.mem_append.mp hb with hb1 | hb2
            · exact hblocks b hb1
            · have hbe : b = (t, emitted) := by simpa using hb2
              subst hbe
              show emitted ∈ orig t
              have hee : emitted ++ rem = emitted := by rw [hrnil]; simp
              exact hee ▸ hmem

/-- C9: mutual exclusion of the output lock makes console records
contiguous.  Under the interleaving semantics of the sink -- each drain
callback formats its record outside the lock, acquires the single
process-wide lock, writes the record's chunks to the shared console while
holding it, and releases it, with steps of different threads interleaved
arbitrarily -- every state reachable from an initial state in which the
lock is free satisfies: whenever the lock is free, the console is a
back-to-back concatenation of complete records, each one of the records
of the thread that wrote it.  No two concurrently written records ever
interleave at sub-record granularity. -/
theorem c9_mutex_noninterleaving (orig : Nat → List (List String)) (s : SinkState)
    (hreach : SinkReaches (sinkInit orig) s) (hfree : s.holder = none) :
    NonInterleaved orig s.console := by
  have hinv : SinkInv orig s := by
    clear hfree
    induction hreach with
    | refl => exact sinkInv_init orig
    | tail hab hbc ih => exact sinkInv_step orig _ _ hbc ih
  obtain ⟨hp, hrest⟩ := hinv
  rw [hfree] at hrest
  exact hrest.2

/-- Witness for C9: a concrete execution in which thread 0 and thread 1
each write one two-chunk record back to back; the reached console is
non-interleaved. -/
theorem c9_witness :
    NonInterleaved sinkOrigW [(0, "A1"), (0, "A2"), (1, "B1"), (1, "B2")] := by
  have h01 : SinkStep sW0 sW1 := SinkStep.enter sW0 0 ["A1", "A2"] [] rfl rfl
  have h12 : SinkStep sW1 sW2 := SinkStep.emit sW1 0 "A1" ["A2"] rfl rfl
  have h23 : SinkStep sW2 sW3 := SinkStep.emit sW2 0 "A2" [] rfl rfl
  have h34 : SinkStep sW3 sW4 := SinkStep.leave sW3 0 rfl rfl
  have h45 : SinkStep sW4 sW5 := SinkStep.enter sW4 1 ["B1", "B2"] [] rfl rfl
  have h56 : SinkStep sW5 sW6 := SinkStep.emit sW5 1 "B1" ["B2"] rfl rfl
  have h67 : SinkStep sW6 sW7 := SinkStep.emit sW6 1 "B2" [] rfl rfl
  have h78 : SinkStep sW7 sW8 := SinkStep.leave sW7 1 rfl rfl
  have hreach : SinkReaches sW0 sW8 :=
    Relation.ReflTransGen.head h01 (Relation.ReflTransGen.head h12
      (Relation.ReflTransGen.head h23 (Relation.ReflTransGen.head h34
        (Relation.ReflTransGen.head h45 (Relation.ReflTransGen.head h56
          (Relation.ReflTransGen.head h67 (Relation.ReflTransGen.single h78)))))))
  exact c9_mutex_noninterleaving sinkOrigW sW8 hreach rfl

end DDSMonitor
